import Mathlib

/-!
Shallow embedding of the Museum Smart System backend
(`database.py` data model and the `main.py` endpoint logic).

The SQL store is modelled as in-memory lists with an autoincrement
counter per table; `session.exec(select(...).where(...)).first()` becomes
`List.find?` in insertion order, `session.get(Model, id)` becomes a
`find?` on the primary key, and an update through a fetched ORM object
becomes an in-place replacement of the first matching row
(`updateFirst`).  `HTTPException(status, detail)` becomes an `.error`
value of `Except HTTPError`.
-/

namespace MuseumSystem

/-- `Visitor` table from `database.py` (the immutable `joined_at`
timestamp plays no role in any endpoint and is omitted). -/
structure Visitor where
  id : Nat
  email : String
  name : Option String := none
  gender : Option String := none
  virtual_nfc_id : Option String := none
  physical_card_id : Option String := none
  deriving Repr, DecidableEq

/-- `Room` table from `database.py`. -/
structure Room where
  id : Nat
  name : String
  description : Option String := none
  deriving Repr, DecidableEq

/-- `PhotoSubmission` table from `database.py`; timestamps are integers
(seconds). -/
structure PhotoSubmission where
  id : Nat
  image_url : String
  visitor_id : Nat
  room_id : Nat
  created_at : Int
  score : Int
  is_hourly_winner : Bool := false
  deriving Repr, DecidableEq

/-- The database state: the three tables touched by the endpoints under
verification, plus autoincrement counters for the surrogate keys. -/
structure Store where
  visitors : List Visitor := []
  rooms : List Room := []
  photos : List PhotoSubmission := []
  next_visitor_id : Nat := 1
  next_photo_id : Nat := 1
  deriving Repr, DecidableEq

/-- `fastapi.HTTPException(status_code, detail)`. -/
structure HTTPError where
  status_code : Nat
  detail : String
  deriving Repr, DecidableEq

/-- Python `x or y` for `x : Optional[str]`: `None` and `""` are falsy. -/
def strOr (x : Option String) (y : String) : String :=
  match x with
  | some s => if s = "" then y else s
  | none => y

/-- Mutation of the object returned by `.first()`: replace the first
row satisfying `p`. -/
def updateFirst (p : Visitor → Bool) (f : Visitor → Visitor) :
    List Visitor → List Visitor
  | [] => []
  | v :: vs => if p v then f v :: vs else v :: updateFirst p f vs

/-- Detail string of the 404 raised by the NFC/card endpoints. -/
def userNotFoundDetail (user_id : Nat) : String :=
  "User with ID " ++ toString user_id ++ " not found"

/-- Detail string of the 400 raised by `register_virtual_nfc` on a
conflicting virtual NFC id. -/
def virtualConflictDetail (value : String) (owner_id : Nat) : String :=
  "Virtual NFC ID '" ++ value ++ "' is already registered to another user (ID: "
    ++ toString owner_id ++ ")"

/-- Detail string of the 400 raised by `link_physical_card` on a
conflicting card UID. -/
def cardConflictDetail (value : String) (owner_id : Nat) : String :=
  "Card UID '" ++ value ++ "' is already linked to another user (ID: "
    ++ toString owner_id ++ ")"

/-- Python `email.split('@')[0]`: the part of the string before the
first `'@'` (the whole string when there is none). -/
def emailLocalPart (email : String) : String :=
  email.takeWhile (fun c => c ≠ '@')

/-- Request body of `POST /visitors/` (a `Visitor` without its
store-assigned primary key). -/
structure VisitorCreate where
  email : String
  name : Option String := none
  gender : Option String := none
  virtual_nfc_id : Option String := none
  physical_card_id : Option String := none
  deriving Repr, DecidableEq

/-- `create_visitor` (`main.py`): returns the existing visitor with the
same email unchanged, else inserts a new one. -/
def create_visitor (st : Store) (req : VisitorCreate) : Store × Visitor :=
  match st.visitors.find? (fun v => v.email == req.email) with
  | some existing_user => (st, existing_user)
  | none =>
    let visitor : Visitor :=
      { id := st.next_visitor_id, email := req.email, name := req.name,
        gender := req.gender, virtual_nfc_id := req.virtual_nfc_id,
        physical_card_id := req.physical_card_id }
    ({ st with visitors := st.visitors ++ [visitor],
               next_visitor_id := st.next_visitor_id + 1 }, visitor)

/-- Request body of `POST /api/auth/login-register`. -/
structure LoginRegisterRequest where
  email : String
  name : Option String := none
  gender : Option String := none
  virtual_nfc_id : String
  deriving Repr, DecidableEq

/-- Response model of `POST /api/auth/login-register`. -/
structure LoginRegisterResponse where
  status : String
  message : String
  user : Visitor
  is_new_user : Bool
  deriving Repr, DecidableEq

/-- Python `if request.name: existing.name = request.name` — the field
is overwritten only by a truthy (non-`None`, non-empty) value. -/
def applyOptUpdate (new old : Option String) : Option String :=
  match new with
  | some s => if s = "" then old else some s
  | none => old

/-- The application logic of `login_or_register` (`main.py:263-317`,
everything up to and including building the response): update the
visitor with this email if one exists, else create one.  No uniqueness
check appears in this code; whether the write survives is decided by
`session.commit()` against the schema, modelled separately in
`login_or_register_endpoint`. -/
def login_or_register (st : Store) (req : LoginRegisterRequest) :
    Store × LoginRegisterResponse :=
  match st.visitors.find? (fun v => v.email == req.email) with
  | some existing_user =>
    let updated : Visitor :=
      { existing_user with
        virtual_nfc_id := some req.virtual_nfc_id,
        name := applyOptUpdate req.name existing_user.name,
        gender := applyOptUpdate req.gender existing_user.gender }
    ({ st with visitors :=
        updateFirst (fun v => v.email == req.email) (fun _ => updated) st.visitors },
     { status := "success", message := "Login successful",
       user := updated, is_new_user := false })
  | none =>
    let new_user : Visitor :=
      { id := st.next_visitor_id, email := req.email, name := req.name,
        gender := req.gender, virtual_nfc_id := some req.virtual_nfc_id }
    ({ st with visitors := st.visitors ++ [new_user],
               next_visitor_id := st.next_visitor_id + 1 },
     { status := "success", message := "Account created successfully",
       user := new_user, is_new_user := true })

/-- One step of the UNIQUE-index check on an optional column: the
row's value, when non-null, appears in none of the later rows. -/
def rowValueFresh (f : Visitor → Option String) (v : Visitor)
    (vs : List Visitor) : Bool :=
  match f v with
  | none => true
  | some s => vs.all (fun w => f w != some s)

/-- A UNIQUE index on an optional column of the visitor table
(`database.py:15-16`): no two rows share a non-null value. -/
def noDuplicateValues (f : Visitor → Option String) : List Visitor → Bool
  | [] => true
  | v :: vs => rowValueFresh f v vs && noDuplicateValues f vs

/-- The UNIQUE index on `email` (`database.py:9`). -/
def noDuplicateEmails : List Visitor → Bool
  | [] => true
  | v :: vs => vs.all (fun w => w.email != v.email) && noDuplicateEmails vs

/-- The visitor table as the schema of `database.py` accepts it: the
three UNIQUE indexes (`email`, `virtual_nfc_id`, `physical_card_id`)
all hold. -/
def visitorTableOk (l : List Visitor) : Bool :=
  noDuplicateEmails l && noDuplicateValues (fun v => v.virtual_nfc_id) l &&
    noDuplicateValues (fun v => v.physical_card_id) l

/-- `POST /api/auth/login-register` as served: the application logic of
`login_or_register` followed by `session.commit()` against the UNIQUE
indexes of `database.py`.  A write that violates an index makes the
engine raise `IntegrityError`, which FastAPI surfaces as an unhandled
HTTP 500 while the transaction rolls back, leaving the store
unchanged. -/
def login_or_register_endpoint (st : Store) (req : LoginRegisterRequest) :
    Except HTTPError (Store × LoginRegisterResponse) :=
  let r := login_or_register st req
  if visitorTableOk r.1.visitors then .ok r
  else .error { status_code := 500, detail := "IntegrityError" }

/-- Response model of `POST /api/nfc/register`. -/
structure RegisterVirtualNFCResponse where
  status : String
  message : String
  user_id : Nat
  virtual_nfc_id : String
  deriving Repr, DecidableEq

/-- `register_virtual_nfc` (`main.py`): 404 when the user id does not
resolve, 400 when the virtual NFC id belongs to a different user,
otherwise set the slot. -/
def register_virtual_nfc (st : Store) (user_id : Nat) (virtual_nfc_id : String) :
    Except HTTPError (Store × RegisterVirtualNFCResponse) :=
  match st.visitors.find? (fun v => v.id == user_id) with
  | none => .error { status_code := 404, detail := userNotFoundDetail user_id }
  | some user =>
    let newVisitors :=
      updateFirst (fun v => v.id == user_id)
        (fun v => { v with virtual_nfc_id := some virtual_nfc_id }) st.visitors
    let done : Store × RegisterVirtualNFCResponse :=
      ({ st with visitors := newVisitors },
       { status := "success",
         message := "Virtual NFC ID registered for user " ++ strOr user.name user.email,
         user_id := user.id, virtual_nfc_id := virtual_nfc_id })
    match st.visitors.find? (fun v => v.virtual_nfc_id == some virtual_nfc_id) with
    | some existing_nfc =>
      if existing_nfc.id ≠ user_id then
        .error { status_code := 400,
                 detail := virtualConflictDetail virtual_nfc_id existing_nfc.id }
      else .ok done
    | none => .ok done

/-- Response model of `POST /api/cards/link`. -/
structure LinkCardResponse where
  status : String
  message : String
  user_id : Nat
  card_uid : String
  deriving Repr, DecidableEq

/-- `link_physical_card` (`main.py`): 404 when the user id does not
resolve, 400 when the card UID belongs to a different user, otherwise
set the slot. -/
def link_physical_card (st : Store) (user_id : Nat) (card_uid : String) :
    Except HTTPError (Store × LinkCardResponse) :=
  match st.visitors.find? (fun v => v.id == user_id) with
  | none => .error { status_code := 404, detail := userNotFoundDetail user_id }
  | some user =>
    let newVisitors :=
      updateFirst (fun v => v.id == user_id)
        (fun v => { v with physical_card_id := some card_uid }) st.visitors
    let done : Store × LinkCardResponse :=
      ({ st with visitors := newVisitors },
       { status := "success",
         message := "Physical card successfully linked to user " ++ strOr user.name user.email,
         user_id := user.id, card_uid := card_uid })
    match st.visitors.find? (fun v => v.physical_card_id == some card_uid) with
    | some existing_card =>
      if existing_card.id ≠ user_id then
        .error { status_code := 400,
                 detail := cardConflictDetail card_uid existing_card.id }
      else .ok done
    | none => .ok done

/-- Response model of `POST /api/gate/scan`. -/
structure GateScanResponse where
  status : String
  user_name : Option String := none
  welcome_message : Option String := none
  deriving Repr, DecidableEq

/-- `scan_at_gate` (`main.py`): grant access when some visitor's
virtual or physical credential equals the scanned id. -/
def scan_at_gate (st : Store) (scanned_id : String) : GateScanResponse :=
  match st.visitors.find? (fun v =>
      v.virtual_nfc_id == some scanned_id || v.physical_card_id == some scanned_id) with
  | some user =>
    let user_name := strOr user.name (emailLocalPart user.email)
    { status := "ACCESS_GRANTED", user_name := some user_name,
      welcome_message := some ("Welcome back, " ++ user_name ++ "!") }
  | none => { status := "ACCESS_DENIED" }

/-- Python `random.randint(lo, hi)` (both bounds inclusive), made
deterministic on an arbitrary seed. -/
def randint (lo hi : Int) (seed : Nat) : Int :=
  lo + Int.ofNat (seed % (hi - lo + 1).toNat)

/-- Response of `POST /upload-photo/` (the `{"status": ..., "photo": ...}`
dict). -/
structure UploadPhotoResponse where
  status : String
  photo : PhotoSubmission
  deriving Repr, DecidableEq

/-- `upload_photo` (`main.py`): 404 when visitor or room is missing,
else store a submission whose score is `random.randint(10, 100)`;
`filename` stands for the uuid-generated file name, `now` for
`datetime.utcnow()` and `seed` for the randomness. -/
def upload_photo (st : Store) (visitor_id room_id : Nat) (filename : String)
    (now : Int) (seed : Nat) : Except HTTPError (Store × UploadPhotoResponse) :=
  if (st.visitors.find? (fun v => v.id == visitor_id)).isNone then
    .error { status_code := 404, detail := "Visitor not found" }
  else if (st.rooms.find? (fun r => r.id == room_id)).isNone then
    .error { status_code := 404, detail := "Room not found" }
  else
    let demo_score := randint 10 100 seed
    let photo : PhotoSubmission :=
      { id := st.next_photo_id,
        image_url := "/static/submissions/" ++ filename,
        visitor_id := visitor_id, room_id := room_id,
        created_at := now, score := demo_score }
    .ok ({ st with photos := st.photos ++ [photo],
                   next_photo_id := st.next_photo_id + 1 },
         { status := "success", photo := photo })

/-- The row filter of `get_room_dashboard`: same room, created within
the last hour before `now` (seconds). -/
def dashboardPred (room_id : Nat) (now : Int) (p : PhotoSubmission) : Bool :=
  p.room_id == room_id && decide (now - 3600 ≤ p.created_at)

/-- `get_room_dashboard` (`main.py`): photos of the room from the last
hour, ordered by score descending, top 3; `now` stands for
`datetime.utcnow()` at call time. -/
def get_room_dashboard (st : Store) (room_id : Nat) (now : Int) :
    List PhotoSubmission :=
  (((st.photos.filter (dashboardPred room_id now)).mergeSort
      (fun a b => b.score ≤ a.score)).take 3)

/-- §3 invariant: at most one visitor holds a given non-null virtual
credential (enforced by the `unique=True` index on `virtual_nfc_id`). -/
def virtualUnique (st : Store) : Prop :=
  ∀ v ∈ st.visitors, ∀ w ∈ st.visitors,
    v.virtual_nfc_id ≠ none → v.virtual_nfc_id = w.virtual_nfc_id → v = w

/-- §3 invariant: at most one visitor holds a given non-null physical
card id (enforced by the `unique=True` index on `physical_card_id`). -/
def physicalUnique (st : Store) : Prop :=
  ∀ v ∈ st.visitors, ∀ w ∈ st.visitors,
    v.physical_card_id ≠ none → v.physical_card_id = w.physical_card_id → v = w

/-- A two-visitor store used to exercise the theorems on concrete data. -/
def sampleStore : Store :=
  { visitors := [
      { id := 1, email := "alice@x.com", name := some "Alice",
        virtual_nfc_id := some "V1", physical_card_id := some "P1" },
      { id := 2, email := "bob@x.com", virtual_nfc_id := some "V2" }],
    rooms := [{ id := 1, name := "Grand Entrance" }],
    next_visitor_id := 3 }

/-- A store whose two visitors share the literal token `"TOK"` across
the two independent credential namespaces — a state the §3 invariants
explicitly allow. -/
def dualTokenStore : Store :=
  { visitors := [
      { id := 1, email := "alice@x.com", name := some "Alice",
        virtual_nfc_id := some "TOK" },
      { id := 2, email := "bob@x.com", name := some "Bob",
        physical_card_id := some "TOK" }],
    next_visitor_id := 3 }

/-- A store with three photo submissions in room 7, one of them older
than an hour relative to `now = 1000` (the spec §8 scenario). -/
def photoStore : Store :=
  { visitors := [{ id := 1, email := "alice@x.com" }],
    rooms := [{ id := 7, name := "Hall" }],
    photos := [
      { id := 1, image_url := "a", visitor_id := 1, room_id := 7,
        created_at := 400, score := 90 },
      { id := 2, image_url := "b", visitor_id := 1, room_id := 7,
        created_at := -3200, score := 80 },
      { id := 3, image_url := "c", visitor_id := 1, room_id := 7,
        created_at := 700, score := 70 }],
    next_visitor_id := 2, next_photo_id := 4 }

/-- The photo record `upload_photo` creates on `sampleStore` with file
name `"photo.jpg"`, call time 1000 and randomness seed 5. -/
def photoW : PhotoSubmission :=
  { id := 1, image_url := "/static/submissions/photo.jpg",
    visitor_id := 1, room_id := 1, created_at := 1000, score := 15 }

/-- The successful result of that upload call. -/
def uploadedW : Store × UploadPhotoResponse :=
  ({ sampleStore with photos := [photoW], next_photo_id := 2 },
   { status := "success", photo := photoW })

/-- `updateFirst` splits the list at the row `find?` located: everything
before it fails the predicate and only that row is rewritten. -/
theorem updateFirst_of_find?_eq_some {p : Visitor → Bool} {f : Visitor → Visitor}
    {l : List Visitor} {a : Visitor} (h : l.find? p = some a) :
    ∃ l₁ l₂, l = l₁ ++ a :: l₂ ∧ (∀ x ∈ l₁, ¬ p x) ∧
      updateFirst p f l = l₁ ++ f a :: l₂ := by
  induction l with
  | nil => simp at h
  | cons v vs ih =>
    by_cases hp : p v = true
    · rw [List.find?_cons_of_pos _ hp] at h
      obtain rfl : v = a := by injection h
      exact ⟨[], vs, rfl, by simp, by simp [updateFirst, hp]⟩
    · rw [List.find?_cons_of_neg _ hp] at h
      obtain ⟨l₁, l₂, heq, hl₁, hupd⟩ := ih h
      refine ⟨v :: l₁, l₂, by rw [heq]; rfl, ?_, ?_⟩
      · intro x hx
        rcases List.mem_cons.mp hx with rfl | hx
        · exact hp
        · exact hl₁ x hx
      · simp [updateFirst, hp, hupd]

/-- Rows failing the predicate survive `updateFirst` untouched. -/
theorem mem_updateFirst_of_neg {p : Visitor → Bool} {f : Visitor → Visitor}
    {l : List Visitor} {v : Visitor} (hv : v ∈ l) (hp : ¬ p v) :
    v ∈ updateFirst p f l := by
  induction l with
  | nil => simp at hv
  | cons w ws ih =>
    rcases List.mem_cons.mp hv with rfl | hv
    · have hw : ¬ p v = true := hp
      simp [updateFirst, hw]
    · by_cases hw : p w = true
      · simp [updateFirst, hw]
        exact Or.inr hv
      · simp [updateFirst, hw]
        exact Or.inr (ih hv)

/-- `find?` returns the head of the filtered list. -/
theorem find?_eq_head?_filter {α : Type} (p : α → Bool) (l : List α) :
    l.find? p = (l.filter p).head? := by
  induction l with
  | nil => rfl
  | cons a l ih =>
    by_cases h : p a = true
    · rw [List.find?_cons_of_pos _ h, List.filter_cons_of_pos h]
      rfl
    · rw [List.find?_cons_of_neg _ h, List.filter_cons_of_neg h, ih]

/-- When the user resolves and every holder of the virtual value is the
user itself, `register_virtual_nfc` succeeds and rewrites the slot. -/
theorem register_virtual_nfc_ok {st : Store} {uid : Nat} {value : String} {user : Visitor}
    (huser : st.visitors.find? (fun v => v.id == uid) = some user)
    (hnc : ∀ e, st.visitors.find? (fun v => v.virtual_nfc_id == some value) = some e →
      e.id = uid) :
    register_virtual_nfc st uid value = .ok
      ({ st with visitors := (updateFirst (fun v => v.id == uid)
          (fun v => { v with virtual_nfc_id := some value }) st.visitors) },
       { status := "success",
         message := "Virtual NFC ID registered for user " ++ strOr user.name user.email,
         user_id := user.id, virtual_nfc_id := value }) := by
  unfold register_virtual_nfc
  rw [huser]
  cases he : st.visitors.find? (fun v => v.virtual_nfc_id == some value) with
  | none => rfl
  | some e =>
    have heid : e.id = uid := hnc e he
    simp [heid]

/-- When the virtual value is held by a row with a different id,
`register_virtual_nfc` raises the 400 naming that row. -/
theorem register_virtual_nfc_conflict {st : Store} {uid : Nat} {value : String}
    {user e : Visitor}
    (huser : st.visitors.find? (fun v => v.id == uid) = some user)
    (he : st.visitors.find? (fun v => v.virtual_nfc_id == some value) = some e)
    (hne : e.id ≠ uid) :
    register_virtual_nfc st uid value =
      .error { status_code := 400, detail := virtualConflictDetail value e.id } := by
  unfold register_virtual_nfc
  rw [huser, he]
  simp [hne]

/-- When the user resolves and every holder of the card UID is the user
itself, `link_physical_card` succeeds and rewrites the slot. -/
theorem link_physical_card_ok {st : Store} {uid : Nat} {value : String} {user : Visitor}
    (huser : st.visitors.find? (fun v => v.id == uid) = some user)
    (hnc : ∀ e, st.visitors.find? (fun v => v.physical_card_id == some value) = some e →
      e.id = uid) :
    link_physical_card st uid value = .ok
      ({ st with visitors := (updateFirst (fun v => v.id == uid)
          (fun v => { v with physical_card_id := some value }) st.visitors) },
       { status := "success",
         message := "Physical card successfully linked to user " ++ strOr user.name user.email,
         user_id := user.id, card_uid := value }) := by
  unfold link_physical_card
  rw [huser]
  cases he : st.visitors.find? (fun v => v.physical_card_id == some value) with
  | none => rfl
  | some e =>
    have heid : e.id = uid := hnc e he
    simp [heid]

/-- When the card UID is held by a row with a different id,
`link_physical_card` raises the 400 naming that row. -/
theorem link_physical_card_conflict {st : Store} {uid : Nat} {value : String}
    {user e : Visitor}
    (huser : st.visitors.find? (fun v => v.id == uid) = some user)
    (he : st.visitors.find? (fun v => v.physical_card_id == some value) = some e)
    (hne : e.id ≠ uid) :
    link_physical_card st uid value =
      .error { status_code := 400, detail := cardConflictDetail value e.id } := by
  unfold link_physical_card
  rw [huser, he]
  simp [hne]

/-- C1: For each of the two credential-link operations
(`register_virtual_nfc` on the virtual slot, `link_physical_card` on the
physical slot) and for every `uid` and `value` over a store satisfying
the per-slot uniqueness invariants: the call fails with the 404
not-found error when `uid` does not resolve to a visitor; fails with the
400 conflict error naming the conflicting owner when `value` is already
bound to a different visitor; and otherwise succeeds and sets the slot
on that visitor — including the idempotent re-set of the same value on
its current owner. -/
theorem credential_link_contract (st : Store) (uid : Nat) (value : String)
    (hvu : virtualUnique st) (hpu : physicalUnique st) :
    ((∀ v ∈ st.visitors, v.id ≠ uid) →
      register_virtual_nfc st uid value =
          .error { status_code := 404, detail := userNotFoundDetail uid } ∧
        link_physical_card st uid value =
          .error { status_code := 404, detail := userNotFoundDetail uid })
    ∧ ((∃ v ∈ st.visitors, v.id = uid) →
      (∀ w ∈ st.visitors, w.virtual_nfc_id = some value → w.id ≠ uid →
        register_virtual_nfc st uid value =
          .error { status_code := 400, detail := virtualConflictDetail value w.id })
      ∧ (∀ w ∈ st.visitors, w.physical_card_id = some value → w.id ≠ uid →
        link_physical_card st uid value =
          .error { status_code := 400, detail := cardConflictDetail value w.id })
      ∧ ((∀ w ∈ st.visitors, w.virtual_nfc_id = some value → w.id = uid) →
        ∃ st2 resp, register_virtual_nfc st uid value = .ok (st2, resp) ∧
          resp.status = "success" ∧
          ∃ u ∈ st2.visitors, u.id = uid ∧ u.virtual_nfc_id = some value)
      ∧ ((∀ w ∈ st.visitors, w.physical_card_id = some value → w.id = uid) →
        ∃ st2 resp, link_physical_card st uid value = .ok (st2, resp) ∧
          resp.status = "success" ∧
          ∃ u ∈ st2.visitors, u.id = uid ∧ u.physical_card_id = some value)) := by
  constructor
  · intro hnone
    have hfind : st.visitors.find? (fun v => v.id == uid) = none := by
      rw [List.find?_eq_none]
      intro x hx
      simpa using hnone x hx
    constructor
    · unfold register_virtual_nfc
      rw [hfind]
    · unfold link_physical_card
      rw [hfind]
  · intro hex
    have hsome : (st.visitors.find? (fun v => v.id == uid)).isSome := by
      rw [List.find?_isSome]
      obtain ⟨v, hv, hvid⟩ := hex
      exact ⟨v, hv, by simpa using hvid⟩
    obtain ⟨user, huser⟩ := Option.isSome_iff_exists.mp hsome
    have huid : user.id = uid := by simpa using List.find?_some huser
    refine ⟨?_, ?_, ?_, ?_⟩
    · intro w hw hwv hwid
      have hesome :
          (st.visitors.find? (fun v => v.virtual_nfc_id == some value)).isSome := by
        rw [List.find?_isSome]
        exact ⟨w, hw, by simpa using hwv⟩
      obtain ⟨e, he⟩ := Option.isSome_iff_exists.mp hesome
      have hev : e.virtual_nfc_id = some value := by simpa using List.find?_some he
      have heq : e = w :=
        hvu e (List.mem_of_find?_eq_some he) w hw (by simp [hev]) (by rw [hev, hwv])
      subst heq
      exact register_virtual_nfc_conflict huser he hwid
    · intro w hw hwv hwid
      have hesome :
          (st.visitors.find? (fun v => v.physical_card_id == some value)).isSome := by
        rw [List.find?_isSome]
        exact ⟨w, hw, by simpa using hwv⟩
      obtain ⟨e, he⟩ := Option.isSome_iff_exists.mp hesome
      have hev : e.physical_card_id = some value := by simpa using List.find?_some he
      have heq : e = w :=
        hpu e (List.mem_of_find?_eq_some he) w hw (by simp [hev]) (by rw [hev, hwv])
      subst heq
      exact link_physical_card_conflict huser he hwid
    · intro hall
      refine ⟨_, _, register_virtual_nfc_ok huser ?_, rfl, ?_⟩
      · intro e he
        exact hall e (List.mem_of_find?_eq_some he) (by simpa using List.find?_some he)
      · obtain ⟨l₁, l₂, hsplit, hl₁, hupd⟩ := updateFirst_of_find?_eq_some
          (f := fun v => { v with virtual_nfc_id := some value }) huser
        refine ⟨{ user with virtual_nfc_id := some value }, ?_, by simpa using huid, rfl⟩
        show _ ∈ updateFirst _ _ st.visitors
        rw [hupd]
        simp
    · intro hall
      refine ⟨_, _, link_physical_card_ok huser ?_, rfl, ?_⟩
      · intro e he
        exact hall e (List.mem_of_find?_eq_some he) (by simpa using List.find?_some he)
      · obtain ⟨l₁, l₂, hsplit, hl₁, hupd⟩ := updateFirst_of_find?_eq_some
          (f := fun v => { v with physical_card_id := some value }) huser
        refine ⟨{ user with physical_card_id := some value }, ?_, by simpa using huid, rfl⟩
        show _ ∈ updateFirst _ _ st.visitors
        rw [hupd]
        simp

/-- C1 witness: the contract instantiated on `sampleStore` with caller
id 2 and value `"V1"` (held by visitor 1), both invariant hypotheses
discharged by computation. -/
theorem credential_link_contract_witness :
    ((∀ v ∈ sampleStore.visitors, v.id ≠ 2) →
      register_virtual_nfc sampleStore 2 "V1" =
          .error { status_code := 404, detail := userNotFoundDetail 2 } ∧
        link_physical_card sampleStore 2 "V1" =
          .error { status_code := 404, detail := userNotFoundDetail 2 })
    ∧ ((∃ v ∈ sampleStore.visitors, v.id = 2) →
      (∀ w ∈ sampleStore.visitors, w.virtual_nfc_id = some "V1" → w.id ≠ 2 →
        register_virtual_nfc sampleStore 2 "V1" =
          .error { status_code := 400, detail := virtualConflictDetail "V1" w.id })
      ∧ (∀ w ∈ sampleStore.visitors, w.physical_card_id = some "V1" → w.id ≠ 2 →
        link_physical_card sampleStore 2 "V1" =
          .error { status_code := 400, detail := cardConflictDetail "V1" w.id })
      ∧ ((∀ w ∈ sampleStore.visitors, w.virtual_nfc_id = some "V1" → w.id = 2) →
        ∃ st2 resp, register_virtual_nfc sampleStore 2 "V1" = .ok (st2, resp) ∧
          resp.status = "success" ∧
          ∃ u ∈ st2.visitors, u.id = 2 ∧ u.virtual_nfc_id = some "V1")
      ∧ ((∀ w ∈ sampleStore.visitors, w.physical_card_id = some "V1" → w.id = 2) →
        ∃ st2 resp, link_physical_card sampleStore 2 "V1" = .ok (st2, resp) ∧
          resp.status = "success" ∧
          ∃ u ∈ st2.visitors, u.id = 2 ∧ u.physical_card_id = some "V1")) :=
  credential_link_contract sampleStore 2 "V1"
    (by unfold virtualUnique; decide) (by unfold physicalUnique; decide)

/-- C2: for every token and store state, the gate resolver grants
access iff some visitor's virtual or physical credential equals the
token and denies otherwise; when granted, the reported display name is
the matched visitor's name when non-empty, else the part of the email
before its first `'@'`. -/
theorem gate_resolver_contract (st : Store) (tok : String) :
    ((scan_at_gate st tok).status = "ACCESS_GRANTED" ↔
      ∃ v ∈ st.visitors, v.virtual_nfc_id = some tok ∨ v.physical_card_id = some tok)
    ∧ ((scan_at_gate st tok).status = "ACCESS_DENIED" ↔
      ¬ ∃ v ∈ st.visitors, v.virtual_nfc_id = some tok ∨ v.physical_card_id = some tok)
    ∧ (∀ n, (scan_at_gate st tok).user_name = some n →
      ∃ v ∈ st.visitors, (v.virtual_nfc_id = some tok ∨ v.physical_card_id = some tok) ∧
        ((∃ s, v.name = some s ∧ s ≠ "" ∧ n = s) ∨
         ((v.name = none ∨ v.name = some "") ∧ n = emailLocalPart v.email))) := by
  cases hf : st.visitors.find? (fun v =>
      v.virtual_nfc_id == some tok || v.physical_card_id == some tok) with
  | none =>
    have hno : ¬ ∃ v ∈ st.visitors,
        v.virtual_nfc_id = some tok ∨ v.physical_card_id = some tok := by
      rw [List.find?_eq_none] at hf
      rintro ⟨v, hv, hor⟩
      exact hf v hv (by simp only [Bool.or_eq_true, beq_iff_eq]; exact hor)
    have hscan : scan_at_gate st tok = { status := "ACCESS_DENIED" } := by
      unfold scan_at_gate
      rw [hf]
    have hstat : (scan_at_gate st tok).status = "ACCESS_DENIED" := by rw [hscan]
    refine ⟨⟨fun h => absurd (hstat.symm.trans h) (by decide), fun h => absurd h hno⟩,
            ⟨fun _ => hno, fun _ => hstat⟩, ?_⟩
    intro n hn
    rw [hscan] at hn
    exact Option.noConfusion hn
  | some user =>
    have hmem : user ∈ st.visitors := List.mem_of_find?_eq_some hf
    have hmatch : user.virtual_nfc_id = some tok ∨ user.physical_card_id = some tok := by
      have h := List.find?_some hf
      simpa only [Bool.or_eq_true, beq_iff_eq] using h
    have hscan : scan_at_gate st tok =
        { status := "ACCESS_GRANTED",
          user_name := some (strOr user.name (emailLocalPart user.email)),
          welcome_message :=
            some ("Welcome back, " ++ strOr user.name (emailLocalPart user.email) ++ "!") } := by
      unfold scan_at_gate
      rw [hf]
    have hstat : (scan_at_gate st tok).status = "ACCESS_GRANTED" := by rw [hscan]
    refine ⟨⟨fun _ => ⟨user, hmem, hmatch⟩, fun _ => hstat⟩,
            ⟨fun h => absurd (hstat.symm.trans h) (by decide),
             fun h => absurd ⟨user, hmem, hmatch⟩ h⟩, ?_⟩
    intro n hn
    rw [hscan] at hn
    injection hn with hn'
    refine ⟨user, hmem, hmatch, ?_⟩
    cases hname : user.name with
    | none =>
      rw [hname] at hn'
      simp only [strOr] at hn'
      right
      exact ⟨Or.inl rfl, hn'.symm⟩
    | some s =>
      rw [hname] at hn'
      simp only [strOr] at hn'
      by_cases hs : s = ""
      · rw [if_pos hs] at hn'
        right
        exact ⟨Or.inr (by rw [hs]), hn'.symm⟩
      · rw [if_neg hs] at hn'
        left
        exact ⟨s, rfl, hs, hn'.symm⟩

/-- C2 witness: the resolver contract instantiated on `sampleStore`
with the token `"V1"` (alice's virtual credential). -/
theorem gate_resolver_contract_witness :
    ((scan_at_gate sampleStore "V1").status = "ACCESS_GRANTED" ↔
      ∃ v ∈ sampleStore.visitors,
        v.virtual_nfc_id = some "V1" ∨ v.physical_card_id = some "V1")
    ∧ ((scan_at_gate sampleStore "V1").status = "ACCESS_DENIED" ↔
      ¬ ∃ v ∈ sampleStore.visitors,
        v.virtual_nfc_id = some "V1" ∨ v.physical_card_id = some "V1")
    ∧ (∀ n, (scan_at_gate sampleStore "V1").user_name = some n →
      ∃ v ∈ sampleStore.visitors,
        (v.virtual_nfc_id = some "V1" ∨ v.physical_card_id = some "V1") ∧
        ((∃ s, v.name = some s ∧ s ≠ "" ∧ n = s) ∨
         ((v.name = none ∨ v.name = some "") ∧ n = emailLocalPart v.email))) :=
  gate_resolver_contract sampleStore "V1"

/-- C3 counterexample: in `dualTokenStore` the token `"TOK"` matches
two visitors (one on the virtual slot, one on the physical slot), yet
the resolver raises nothing and returns ACCESS_GRANTED built from the
first match (Alice) — it silently picks one. -/
theorem gate_resolver_multimatch_counterexample :
    (dualTokenStore.visitors.filter (fun v =>
        v.virtual_nfc_id == some "TOK" || v.physical_card_id == some "TOK")).length = 2 ∧
    scan_at_gate dualTokenStore "TOK" =
      { status := "ACCESS_GRANTED", user_name := some "Alice",
        welcome_message := some "Welcome back, Alice!" } := by
  constructor
  · rfl
  · rfl

/-- C3 amended: when the store returns more than one visitor matching a
scanned token, the gate resolver does not raise an integrity error — it
silently grants access as the first match in store order. -/
theorem gate_resolver_multimatch_picks_first (st : Store) (tok : String)
    (h : 1 < (st.visitors.filter (fun v =>
        v.virtual_nfc_id == some tok || v.physical_card_id == some tok)).length) :
    ∃ v, (st.visitors.filter (fun v =>
        v.virtual_nfc_id == some tok || v.physical_card_id == some tok)).head? = some v ∧
      scan_at_gate st tok =
        { status := "ACCESS_GRANTED",
          user_name := some (strOr v.name (emailLocalPart v.email)),
          welcome_message :=
            some ("Welcome back, " ++ strOr v.name (emailLocalPart v.email) ++ "!") } := by
  cases hl : st.visitors.filter (fun v =>
      v.virtual_nfc_id == some tok || v.physical_card_id == some tok) with
  | nil =>
    rw [hl] at h
    simp at h
  | cons v rest =>
    refine ⟨v, rfl, ?_⟩
    have hfind : st.visitors.find? (fun v =>
        v.virtual_nfc_id == some tok || v.physical_card_id == some tok) = some v := by
      rw [find?_eq_head?_filter, hl]
      rfl
    unfold scan_at_gate
    rw [hfind]

/-- C3 witness: the amended behaviour on the concrete two-match store. -/
theorem gate_resolver_multimatch_picks_first_witness :
    ∃ v, (dualTokenStore.visitors.filter (fun v =>
        v.virtual_nfc_id == some "TOK" || v.physical_card_id == some "TOK")).head? = some v ∧
      scan_at_gate dualTokenStore "TOK" =
        { status := "ACCESS_GRANTED",
          user_name := some (strOr v.name (emailLocalPart v.email)),
          welcome_message :=
            some ("Welcome back, " ++ strOr v.name (emailLocalPart v.email) ++ "!") } :=
  gate_resolver_multimatch_picks_first dualTokenStore "TOK" (by decide)

/-- C4: for every room id and call time, the dashboard returns at most
3 entries, each belonging to the requested room and created within the
hour before the call time; the returned sequence is non-increasing in
score, and when no submission qualifies it is empty rather than an
error. -/
theorem dashboard_contract (st : Store) (room_id : Nat) (now : Int) :
    (get_room_dashboard st room_id now).length ≤ 3
    ∧ (∀ p ∈ get_room_dashboard st room_id now,
        p.room_id = room_id ∧ now - 3600 ≤ p.created_at)
    ∧ (get_room_dashboard st room_id now).Pairwise (fun a b => b.score ≤ a.score)
    ∧ ((∀ p ∈ st.photos, ¬ (p.room_id = room_id ∧ now - 3600 ≤ p.created_at)) →
        get_room_dashboard st room_id now = []) := by
  refine ⟨?_, ?_, ?_, ?_⟩
  · exact List.length_take_le 3 _
  · intro p hp
    have hp1 : p ∈ (st.photos.filter (dashboardPred room_id now)).mergeSort
        (fun a b => b.score ≤ a.score) := List.mem_of_mem_take hp
    have hp2 : p ∈ st.photos.filter (dashboardPred room_id now) := by
      rwa [List.mem_mergeSort] at hp1
    have hp3 := List.of_mem_filter hp2
    unfold dashboardPred at hp3
    simp only [Bool.and_eq_true, beq_iff_eq, decide_eq_true_eq] at hp3
    exact hp3
  · have trans_le : ∀ a b c : PhotoSubmission,
        decide (b.score ≤ a.score) = true → decide (c.score ≤ b.score) = true →
        decide (c.score ≤ a.score) = true := by
      intro a b c hab hbc
      simp only [decide_eq_true_eq] at hab hbc ⊢
      exact le_trans hbc hab
    have total_le : ∀ a b : PhotoSubmission,
        (decide (b.score ≤ a.score) || decide (a.score ≤ b.score)) = true := by
      intro a b
      simp only [Bool.or_eq_true, decide_eq_true_eq]
      exact le_total b.score a.score
    have hs := List.sorted_mergeSort trans_le total_le
      (st.photos.filter (dashboardPred room_id now))
    have ht := List.Pairwise.sublist (List.take_sublist 3 _) hs
    exact ht.imp (fun h => of_decide_eq_true h)
  · intro hnone
    have hfil : st.photos.filter (dashboardPred room_id now) = [] := by
      rw [List.filter_eq_nil_iff]
      intro p hp
      unfold dashboardPred
      simp only [Bool.and_eq_true, beq_iff_eq, decide_eq_true_eq]
      exact fun hc => hnone p hp hc
    unfold get_room_dashboard
    rw [hfil]
    simp

/-- C4 witness: the dashboard contract on the concrete `photoStore` at
time 1000 (the spec §8 scenario: scores 90 and 70 qualify, the score-80
photo is older than an hour). -/
theorem dashboard_contract_witness :
    (get_room_dashboard photoStore 7 1000).length ≤ 3
    ∧ (∀ p ∈ get_room_dashboard photoStore 7 1000,
        p.room_id = 7 ∧ 1000 - 3600 ≤ p.created_at)
    ∧ (get_room_dashboard photoStore 7 1000).Pairwise (fun a b => b.score ≤ a.score)
    ∧ ((∀ p ∈ photoStore.photos, ¬ (p.room_id = 7 ∧ 1000 - 3600 ≤ p.created_at)) →
        get_room_dashboard photoStore 7 1000 = []) :=
  dashboard_contract photoStore 7 1000

/-- `create_visitor` on a hit returns the existing row unchanged. -/
theorem create_visitor_of_find?_some {st : Store} {req : VisitorCreate} {ex : Visitor}
    (h : st.visitors.find? (fun v => v.email == req.email) = some ex) :
    create_visitor st req = (st, ex) := by
  unfold create_visitor
  rw [h]

/-- `create_visitor` on a miss appends the new row. -/
theorem create_visitor_of_find?_none {st : Store} {req : VisitorCreate}
    (h : st.visitors.find? (fun v => v.email == req.email) = none) :
    create_visitor st req =
      ({ st with visitors := (st.visitors ++
                   [{ id := st.next_visitor_id, email := req.email, name := req.name,
                      gender := req.gender, virtual_nfc_id := req.virtual_nfc_id,
                      physical_card_id := req.physical_card_id }]),
                 next_visitor_id := st.next_visitor_id + 1 },
       { id := st.next_visitor_id, email := req.email, name := req.name,
         gender := req.gender, virtual_nfc_id := req.virtual_nfc_id,
         physical_card_id := req.physical_card_id }) := by
  unfold create_visitor
  rw [h]

/-- `login_or_register` on a hit rewrites the found row in place. -/
theorem login_or_register_of_find?_some {st : Store} {req : LoginRegisterRequest}
    {ex : Visitor} (h : st.visitors.find? (fun v => v.email == req.email) = some ex) :
    login_or_register st req =
      ({ st with visitors := (updateFirst (fun v => v.email == req.email)
          (fun _ => { ex with
                      virtual_nfc_id := some req.virtual_nfc_id,
                      name := applyOptUpdate req.name ex.name,
                      gender := applyOptUpdate req.gender ex.gender }) st.visitors) },
       { status := "success", message := "Login successful",
         user := { ex with
                   virtual_nfc_id := some req.virtual_nfc_id,
                   name := applyOptUpdate req.name ex.name,
                   gender := applyOptUpdate req.gender ex.gender },
         is_new_user := false }) := by
  unfold login_or_register
  rw [h]

/-- `login_or_register` on a miss appends the new row. -/
theorem login_or_register_of_find?_none {st : Store} {req : LoginRegisterRequest}
    (h : st.visitors.find? (fun v => v.email == req.email) = none) :
    login_or_register st req =
      ({ st with visitors := (st.visitors ++
                   [{ id := st.next_visitor_id, email := req.email, name := req.name,
                      gender := req.gender, virtual_nfc_id := some req.virtual_nfc_id }]),
                 next_visitor_id := st.next_visitor_id + 1 },
       { status := "success", message := "Account created successfully",
         user := { id := st.next_visitor_id, email := req.email, name := req.name,
                   gender := req.gender, virtual_nfc_id := some req.virtual_nfc_id },
         is_new_user := true }) := by
  unfold login_or_register
  rw [h]

/-- C5: for every email — when a visitor with that email exists,
`login_or_register` overwrites that visitor's virtual credential with
the given value, leaves name and gender at their prior values when the
request omits them, and returns the updated record (present in the
store) with `is_new_user = false`; when no such visitor exists it
creates a new visitor carrying the given fields and virtual credential
and returns it with `is_new_user = true`. -/
theorem login_or_register_contract (st : Store) (req : LoginRegisterRequest) :
    ((∃ v ∈ st.visitors, v.email = req.email) →
      ∃ old ∈ st.visitors, old.email = req.email ∧
        (login_or_register st req).2.is_new_user = false ∧
        (login_or_register st req).2.user.id = old.id ∧
        (login_or_register st req).2.user.email = old.email ∧
        (login_or_register st req).2.user.virtual_nfc_id = some req.virtual_nfc_id ∧
        (req.name = none → (login_or_register st req).2.user.name = old.name) ∧
        (req.gender = none → (login_or_register st req).2.user.gender = old.gender) ∧
        (login_or_register st req).2.user ∈ (login_or_register st req).1.visitors)
    ∧ ((∀ v ∈ st.visitors, v.email ≠ req.email) →
      (login_or_register st req).2.is_new_user = true ∧
      (login_or_register st req).2.user.email = req.email ∧
      (login_or_register st req).2.user.name = req.name ∧
      (login_or_register st req).2.user.gender = req.gender ∧
      (login_or_register st req).2.user.virtual_nfc_id = some req.virtual_nfc_id ∧
      (login_or_register st req).1.visitors =
        st.visitors ++ [(login_or_register st req).2.user]) := by
  constructor
  · intro hexist
    have hsome : (st.visitors.find? (fun v => v.email == req.email)).isSome := by
      rw [List.find?_isSome]
      obtain ⟨v, hv, he⟩ := hexist
      exact ⟨v, hv, by simpa using he⟩
    obtain ⟨ex, hf⟩ := Option.isSome_iff_exists.mp hsome
    have hres := login_or_register_of_find?_some hf
    have hmem : ex ∈ st.visitors := List.mem_of_find?_eq_some hf
    have hemail : ex.email = req.email := by simpa using List.find?_some hf
    obtain ⟨l₁, l₂, hsplit, hl₁, hupd⟩ := updateFirst_of_find?_eq_some
      (f := fun _ => { ex with
        virtual_nfc_id := some req.virtual_nfc_id,
        name := applyOptUpdate req.name ex.name,
        gender := applyOptUpdate req.gender ex.gender }) hf
    refine ⟨ex, hmem, hemail, ?_, ?_, ?_, ?_, ?_, ?_, ?_⟩
    · rw [hres]
    · rw [hres]
    · rw [hres]
    · rw [hres]
    · intro hname
      rw [hres]
      show applyOptUpdate req.name ex.name = ex.name
      rw [hname]
      rfl
    · intro hgender
      rw [hres]
      show applyOptUpdate req.gender ex.gender = ex.gender
      rw [hgender]
      rfl
    · rw [hres]
      show _ ∈ updateFirst _ _ st.visitors
      rw [hupd]
      simp
  · intro hnone
    have hf : st.visitors.find? (fun v => v.email == req.email) = none := by
      rw [List.find?_eq_none]
      intro x hx
      simpa using hnone x hx
    have hres := login_or_register_of_find?_none hf
    rw [hres]
    exact ⟨rfl, rfl, rfl, rfl, rfl, rfl⟩

/-- C5 witness: the contract instantiated on `sampleStore` with a
login request for alice's email carrying a fresh virtual credential. -/
theorem login_or_register_contract_witness :
    ((∃ v ∈ sampleStore.visitors, v.email = "alice@x.com") →
      ∃ old ∈ sampleStore.visitors, old.email = "alice@x.com" ∧
        (login_or_register sampleStore
            { email := "alice@x.com", virtual_nfc_id := "V9" }).2.is_new_user = false ∧
        (login_or_register sampleStore
            { email := "alice@x.com", virtual_nfc_id := "V9" }).2.user.id = old.id ∧
        (login_or_register sampleStore
            { email := "alice@x.com", virtual_nfc_id := "V9" }).2.user.email = old.email ∧
        (login_or_register sampleStore
            { email := "alice@x.com", virtual_nfc_id := "V9" }).2.user.virtual_nfc_id =
          some "V9" ∧
        ((LoginRegisterRequest.mk "alice@x.com" none none "V9").name = none →
          (login_or_register sampleStore
            { email := "alice@x.com", virtual_nfc_id := "V9" }).2.user.name = old.name) ∧
        ((LoginRegisterRequest.mk "alice@x.com" none none "V9").gender = none →
          (login_or_register sampleStore
            { email := "alice@x.com", virtual_nfc_id := "V9" }).2.user.gender = old.gender) ∧
        (login_or_register sampleStore
            { email := "alice@x.com", virtual_nfc_id := "V9" }).2.user ∈
          (login_or_register sampleStore
            { email := "alice@x.com", virtual_nfc_id := "V9" }).1.visitors)
    ∧ ((∀ v ∈ sampleStore.visitors, v.email ≠ "alice@x.com") →
      (login_or_register sampleStore
          { email := "alice@x.com", virtual_nfc_id := "V9" }).2.is_new_user = true ∧
      (login_or_register sampleStore
          { email := "alice@x.com", virtual_nfc_id := "V9" }).2.user.email = "alice@x.com" ∧
      (login_or_register sampleStore
          { email := "alice@x.com", virtual_nfc_id := "V9" }).2.user.name = none ∧
      (login_or_register sampleStore
          { email := "alice@x.com", virtual_nfc_id := "V9" }).2.user.gender = none ∧
      (login_or_register sampleStore
          { email := "alice@x.com", virtual_nfc_id := "V9" }).2.user.virtual_nfc_id =
        some "V9" ∧
      (login_or_register sampleStore
          { email := "alice@x.com", virtual_nfc_id := "V9" }).1.visitors =
        sampleStore.visitors ++ [(login_or_register sampleStore
          { email := "alice@x.com", virtual_nfc_id := "V9" }).2.user]) :=
  login_or_register_contract sampleStore { email := "alice@x.com", virtual_nfc_id := "V9" }

/-- Two distinct rows holding the same non-null value break the
UNIQUE-index check on that column. -/
theorem noDuplicateValues_eq_false_of_two {f : Visitor → Option String}
    {l : List Visitor} {v w : Visitor} {s : String}
    (hv : v ∈ l) (hw : w ∈ l) (hne : v ≠ w)
    (hfv : f v = some s) (hfw : f w = some s) :
    noDuplicateValues f l = false := by
  induction l with
  | nil => simp at hv
  | cons a as ih =>
    rcases List.mem_cons.mp hv with rfl | hv2
    · have hw2 : w ∈ as := by
        rcases List.mem_cons.mp hw with h | h
        · exact absurd h.symm hne
        · exact h
      have hall : as.all (fun x => f x != some s) = false := by
        rw [List.all_eq_false]
        exact ⟨w, hw2, by simp [hfw]⟩
      simp [noDuplicateValues, rowValueFresh, hfv, hall]
    · rcases List.mem_cons.mp hw with rfl | hw2
      · have hall : as.all (fun x => f x != some s) = false := by
          rw [List.all_eq_false]
          exact ⟨v, hv2, by simp [hfv]⟩
        simp [noDuplicateValues, rowValueFresh, hfw, hall]
      · simp [noDuplicateValues, ih hv2 hw2]

/-- C6 counterexample: on `sampleStore`, bob (an existing email) logs
in with `"V1"`, which alice — a different visitor — already holds as
her virtual credential.  The served operation does not succeed: the
UNIQUE index on `virtual_nfc_id` rejects the write at commit, the
endpoint fails with IntegrityError (HTTP 500), and no overwritten state
is produced. -/
theorem login_or_register_conflict_counterexample :
    (∃ v ∈ sampleStore.visitors, v.email = "bob@x.com") ∧
    (∃ w ∈ sampleStore.visitors, w.virtual_nfc_id = some "V1" ∧
      w.email ≠ "bob@x.com") ∧
    login_or_register_endpoint sampleStore
        { email := "bob@x.com", virtual_nfc_id := "V1" } =
      .error { status_code := 500, detail := "IntegrityError" } :=
  ⟨by decide, by decide, rfl⟩

/-- C6 amended: the combined login/register path performs no
application-level uniqueness check of its own and never raises the 400
ConflictError of `register_virtual_nfc` — but the overwrite does not
succeed either: for every existing-email call whose virtual value is
already bound to a different visitor, the UNIQUE index on
`virtual_nfc_id` rejects the write at commit, so the endpoint fails
with IntegrityError (HTTP 500) and the transaction rolls back without
setting the slot. -/
theorem login_or_register_conflict_integrity_error (st : Store)
    (req : LoginRegisterRequest)
    (hexist : ∃ v ∈ st.visitors, v.email = req.email)
    (w : Visitor) (hw : w ∈ st.visitors)
    (hwv : w.virtual_nfc_id = some req.virtual_nfc_id)
    (hwe : w.email ≠ req.email) :
    login_or_register_endpoint st req =
      .error { status_code := 500, detail := "IntegrityError" } := by
  have hsome : (st.visitors.find? (fun v => v.email == req.email)).isSome := by
    rw [List.find?_isSome]
    obtain ⟨v, hv, he⟩ := hexist
    exact ⟨v, hv, by simpa using he⟩
  obtain ⟨ex, hf⟩ := Option.isSome_iff_exists.mp hsome
  have hres := login_or_register_of_find?_some hf
  have hemail : ex.email = req.email := by simpa using List.find?_some hf
  obtain ⟨l₁, l₂, hsplit, hl₁, hupd⟩ := updateFirst_of_find?_eq_some
    (f := fun _ => { ex with
      virtual_nfc_id := some req.virtual_nfc_id,
      name := applyOptUpdate req.name ex.name,
      gender := applyOptUpdate req.gender ex.gender }) hf
  have hu_mem : ({ ex with
      virtual_nfc_id := some req.virtual_nfc_id,
      name := applyOptUpdate req.name ex.name,
      gender := applyOptUpdate req.gender ex.gender } : Visitor) ∈
      (login_or_register st req).1.visitors := by
    rw [hres]
    show _ ∈ updateFirst _ _ st.visitors
    rw [hupd]
    simp
  have hw_mem : w ∈ (login_or_register st req).1.visitors := by
    rw [hres]
    show w ∈ updateFirst _ _ st.visitors
    exact mem_updateFirst_of_neg hw (by simpa using hwe)
  have hne : ({ ex with
      virtual_nfc_id := some req.virtual_nfc_id,
      name := applyOptUpdate req.name ex.name,
      gender := applyOptUpdate req.gender ex.gender } : Visitor) ≠ w := by
    intro hcontra
    apply hwe
    rw [← hcontra]
    exact hemail
  have hdup : noDuplicateValues (fun v => v.virtual_nfc_id)
      (login_or_register st req).1.visitors = false :=
    noDuplicateValues_eq_false_of_two hu_mem hw_mem hne rfl hwv
  have hok : visitorTableOk (login_or_register st req).1.visitors = false := by
    unfold visitorTableOk
    rw [hdup]
    simp
  simp [login_or_register_endpoint, hok]

/-- C6 witness: the amended behaviour on the concrete conflicting
login, all hypotheses discharged by computation. -/
theorem login_or_register_conflict_integrity_error_witness :
    login_or_register_endpoint sampleStore
        { email := "bob@x.com", virtual_nfc_id := "V1" } =
      .error { status_code := 500, detail := "IntegrityError" } :=
  login_or_register_conflict_integrity_error sampleStore
    { email := "bob@x.com", virtual_nfc_id := "V1" } (by decide)
    { id := 1, email := "alice@x.com", name := some "Alice",
      virtual_nfc_id := some "V1", physical_card_id := some "P1" }
    (by decide) (by decide) (by decide)

/-- C7: `create_visitor` is idempotent on email — a second call with
the same email returns the very record the first call returned (in
particular the same id) and leaves the store unchanged, creating no
duplicate visitor. -/
theorem create_visitor_idempotent (st : Store) (r1 r2 : VisitorCreate)
    (h : r1.email = r2.email) :
    (create_visitor (create_visitor st r1).1 r2).2 = (create_visitor st r1).2 ∧
    (create_visitor (create_visitor st r1).1 r2).1 = (create_visitor st r1).1 := by
  cases hf : st.visitors.find? (fun v => v.email == r1.email) with
  | some ex =>
    have h1 := create_visitor_of_find?_some hf
    have hf2 : st.visitors.find? (fun v => v.email == r2.email) = some ex := by
      rw [← h]
      exact hf
    have h2 := create_visitor_of_find?_some hf2
    rw [h1, h2]
    exact ⟨rfl, rfl⟩
  | none =>
    have h1 := create_visitor_of_find?_none hf
    have hf2 : ((create_visitor st r1).1).visitors.find?
        (fun v => v.email == r2.email) = some (create_visitor st r1).2 := by
      rw [h1]
      show List.find? (fun v : Visitor => v.email == r2.email) (st.visitors ++
          [({ id := st.next_visitor_id, email := r1.email, name := r1.name,
              gender := r1.gender, virtual_nfc_id := r1.virtual_nfc_id,
              physical_card_id := r1.physical_card_id } : Visitor)]) =
        some { id := st.next_visitor_id, email := r1.email, name := r1.name,
               gender := r1.gender, virtual_nfc_id := r1.virtual_nfc_id,
               physical_card_id := r1.physical_card_id }
      rw [List.find?_append]
      have hn : st.visitors.find? (fun v => v.email == r2.email) = none := by
        rw [← h]
        exact hf
      rw [hn, Option.none_or]
      exact List.find?_cons_of_pos _ (by simpa using h)
    have h2 := create_visitor_of_find?_some hf2
    rw [h2]
    exact ⟨rfl, rfl⟩

/-- C7 witness: creating `carol@x.com` twice on `sampleStore`. -/
theorem create_visitor_idempotent_witness :
    (create_visitor (create_visitor sampleStore { email := "carol@x.com" }).1
        { email := "carol@x.com" }).2 =
      (create_visitor sampleStore { email := "carol@x.com" }).2 ∧
    (create_visitor (create_visitor sampleStore { email := "carol@x.com" }).1
        { email := "carol@x.com" }).1 =
      (create_visitor sampleStore { email := "carol@x.com" }).1 :=
  create_visitor_idempotent sampleStore { email := "carol@x.com" }
    { email := "carol@x.com" } rfl

/-- C8 counterexample: `create_visitor` applies no email validation —
called with the empty-string email on an empty store it raises no
validation error (its result type has no error case at all) and creates
a visitor whose email is `""`. -/
theorem create_visitor_no_validation_counterexample :
    (create_visitor { } { email := "" }).1.visitors = [{ id := 1, email := "" }] ∧
    (create_visitor { } { email := "" }).2.email = "" :=
  ⟨rfl, rfl⟩

/-- C8 amended: `create_visitor` never fails and applies no
email-format validation — for every request, empty or `'@'`-less emails
included, it returns a visitor whose email equals the requested string
and which is present in the resulting store. -/
theorem create_visitor_accepts_any_email (st : Store) (req : VisitorCreate) :
    (create_visitor st req).2.email = req.email ∧
    (create_visitor st req).2 ∈ (create_visitor st req).1.visitors := by
  cases hf : st.visitors.find? (fun v => v.email == req.email) with
  | some ex =>
    have h1 := create_visitor_of_find?_some hf
    rw [h1]
    exact ⟨by simpa using List.find?_some hf, List.mem_of_find?_eq_some hf⟩
  | none =>
    have h1 := create_visitor_of_find?_none hf
    rw [h1]
    exact ⟨rfl, by simp⟩

/-- C9: every photo stored through `upload_photo` carries the demo
score drawn as `random.randint(10, 100)` — between 10 and 100 inclusive
for every seed, never the schema default 0 — and the stored photo is
the one returned. -/
theorem upload_photo_score_range (st : Store) (visitor_id room_id : Nat)
    (filename : String) (now : Int) (seed : Nat) (pr : Store × UploadPhotoResponse)
    (h : upload_photo st visitor_id room_id filename now seed = .ok pr) :
    10 ≤ pr.2.photo.score ∧ pr.2.photo.score ≤ 100 ∧ pr.2.photo.score ≠ 0 ∧
    pr.2.photo ∈ pr.1.photos := by
  unfold upload_photo at h
  by_cases h1 : (st.visitors.find? (fun v => v.id == visitor_id)).isNone
  · rw [if_pos h1] at h
    exact absurd h (by simp)
  · rw [if_neg h1] at h
    by_cases h2 : (st.rooms.find? (fun r => r.id == room_id)).isNone
    · rw [if_pos h2] at h
      exact absurd h (by simp)
    · rw [if_neg h2] at h
      injection h with h'
      subst h'
      have hm : seed % 91 < 91 := Nat.mod_lt _ (by norm_num)
      refine ⟨?_, ?_, ?_, ?_⟩
      · show (10 : Int) ≤ 10 + ((seed % 91 : Nat) : Int)
        omega
      · show 10 + ((seed % 91 : Nat) : Int) ≤ 100
        omega
      · show 10 + ((seed % 91 : Nat) : Int) ≠ 0
        omega
      · show _ ∈ st.photos ++ [_]
        simp

/-- C9 witness: the upload call on `sampleStore` (visitor 1, room 1,
time 1000, seed 5) succeeds with `uploadedW`, whose photo score 15 lies
in the range. -/
theorem upload_photo_score_range_witness :
    10 ≤ uploadedW.2.photo.score ∧ uploadedW.2.photo.score ≤ 100 ∧
    uploadedW.2.photo.score ≠ 0 ∧ uploadedW.2.photo ∈ uploadedW.1.photos :=
  upload_photo_score_range sampleStore 1 1 "photo.jpg" 1000 5 uploadedW rfl

/-- C10: on the login/register path for an existing visitor, an empty
string passed for `name` (or `gender`) behaves exactly like an omitted
field — the stored record keeps its prior value, so a non-empty name or
gender is never overwritten by an empty string through this
operation. -/
theorem login_or_register_empty_string_keeps_fields (st : Store)
    (req : LoginRegisterRequest)
    (hexist : ∃ v ∈ st.visitors, v.email = req.email) :
    ∃ old ∈ st.visitors, old.email = req.email ∧
      (req.name = some "" → (login_or_register st req).2.user.name = old.name) ∧
      (req.gender = some "" → (login_or_register st req).2.user.gender = old.gender) ∧
      (login_or_register st req).2.user ∈ (login_or_register st req).1.visitors := by
  have hsome : (st.visitors.find? (fun v => v.email == req.email)).isSome := by
    rw [List.find?_isSome]
    obtain ⟨v, hv, he⟩ := hexist
    exact ⟨v, hv, by simpa using he⟩
  obtain ⟨ex, hf⟩ := Option.isSome_iff_exists.mp hsome
  have hres := login_or_register_of_find?_some hf
  have hmem : ex ∈ st.visitors := List.mem_of_find?_eq_some hf
  have hemail : ex.email = req.email := by simpa using List.find?_some hf
  obtain ⟨l₁, l₂, hsplit, hl₁, hupd⟩ := updateFirst_of_find?_eq_some
    (f := fun _ => { ex with
      virtual_nfc_id := some req.virtual_nfc_id,
      name := applyOptUpdate req.name ex.name,
      gender := applyOptUpdate req.gender ex.gender }) hf
  refine ⟨ex, hmem, hemail, ?_, ?_, ?_⟩
  · intro hname
    rw [hres]
    show applyOptUpdate req.name ex.name = ex.name
    rw [hname]
    simp [applyOptUpdate]
  · intro hgender
    rw [hres]
    show applyOptUpdate req.gender ex.gender = ex.gender
    rw [hgender]
    simp [applyOptUpdate]
  · rw [hres]
    show _ ∈ updateFirst _ _ st.visitors
    rw [hupd]
    simp

/-- C10 witness: alice (stored name `"Alice"`) logs in passing the
empty string for both name and gender; her stored fields survive. -/
theorem login_or_register_empty_string_keeps_fields_witness :
    ∃ old ∈ sampleStore.visitors, old.email = "alice@x.com" ∧
      ((some "" : Option String) = some "" →
        (login_or_register sampleStore
          { email := "alice@x.com", name := some "", gender := some "",
            virtual_nfc_id := "V9" }).2.user.name = old.name) ∧
      ((some "" : Option String) = some "" →
        (login_or_register sampleStore
          { email := "alice@x.com", name := some "", gender := some "",
            virtual_nfc_id := "V9" }).2.user.gender = old.gender) ∧
      (login_or_register sampleStore
          { email := "alice@x.com", name := some "", gender := some "",
            virtual_nfc_id := "V9" }).2.user ∈
        (login_or_register sampleStore
          { email := "alice@x.com", name := some "", gender := some "",
            virtual_nfc_id := "V9" }).1.visitors :=
  login_or_register_empty_string_keeps_fields sampleStore
    { email := "alice@x.com", name := some "", gender := some "",
      virtual_nfc_id := "V9" }
    (by decide)

end MuseumSystem
